import Mathlib

set_option maxRecDepth 8000

/-!
Shallow embedding of `tensorboard/tools/diagnose_me.py` (the TensorBoard
self-diagnosis script): the check registry and wrapper, the runner `main`,
the text helper `reflow` (CPython `textwrap.fill`/`textwrap.dedent` with
default parameters, plus `str.strip`), and the individual probe helpers
`pip`, `which`, `readable_fqdn`, `stat_tensorboardinfo`.

Conventions of the embedding:
* Python byte strings are `List Nat` (one entry per byte); text strings are
  Lean `String`/`List Char` (the program only manipulates ASCII text).
* A call to a fallible external operation (a subprocess, `os.stat`,
  `socket.getfqdn`) is a parameter of the embedded function, an
  `Except`-typed value describing how that call turns out, so the embedded
  function is a pure function of the outcome of its external probes.
* A Python exception is represented by its rendered message/traceback, a
  `String`.
* Loops whose termination metric is not structural are given explicit fuel
  that provably exceeds the number of iterations the Python loop performs
  on that input, so every definition evaluates by `decide`/`rfl`.
-/

namespace DiagnoseMe

/-- The apostrophe character, as a one-character string. -/
def aposS : String := String.mk [Char.ofNat 39]

/-! ### `textwrap` and `str` primitives (Python standard library semantics)

`reflow(paragraph)` is `textwrap.fill(textwrap.dedent(paragraph).strip())`.
`textwrap.fill` is used with its default parameters: `width=70`,
`expand_tabs=True` (tab size 8), `replace_whitespace=True`,
`drop_whitespace=True`, `break_long_words=True`, `break_on_hyphens=True`,
no indent, `max_lines=None`.  The definitions below transcribe the CPython
implementation of those primitives restricted to ASCII text (the only text
this program feeds them). -/

/-- Python's `string.whitespace` for `str.strip` / `textwrap`:
`'\t'`, `'\n'`, `'\x0b'`, `'\x0c'`, `'\r'`, `' '`. -/
def isPyWs (c : Char) : Bool :=
  c == ' ' || c == '\t' || c == '\n' || c == '\x0b' || c == '\x0c' || c == '\r'

/-- `str.strip()` (ASCII): remove leading and trailing whitespace. -/
def stripList (cs : List Char) : List Char :=
  ((cs.dropWhile isPyWs).reverse.dropWhile isPyWs).reverse

/-- `text.split('\n')`: split into lines at every newline; `""` gives `[""]`. -/
def splitLines : List Char → List (List Char)
  | [] => [[]]
  | c :: cs =>
    if c = '\n' then [] :: splitLines cs
    else
      match splitLines cs with
      | l :: ls => (c :: l) :: ls
      | [] => [[c]]

/-- `'\n'.join`: inverse of `splitLines`. -/
def joinLines (ls : List (List Char)) : List Char :=
  (ls.intersperse [Char.ofNat 10]).flatten

/-- A character matched by `[ \t]` (the indentation class of `textwrap.dedent`). -/
def isIndentChar (c : Char) : Bool := c == ' ' || c == '\t'

/-- `textwrap.dedent`'s `_whitespace_only_re.sub('', text)`: a line that
consists solely of `[ \t]` characters (and is nonempty) is replaced by the
empty line. -/
def blankToEmpty (l : List Char) : List Char :=
  if !l.isEmpty && l.all isIndentChar then [] else l

/-- `textwrap.dedent`'s `_leading_whitespace_re`: for a line that contains a
character outside `[ \t]`, its leading run of `[ \t]` characters. -/
def lineIndent (l : List Char) : Option (List Char) :=
  if l.any (fun c => !isIndentChar c) then some (l.takeWhile isIndentChar)
  else none

/-- Longest common prefix of two character lists.  `textwrap.dedent`'s margin
loop (the `startswith` cases plus the explicit mismatch scan) computes
exactly the longest common prefix of the collected indents. -/
def commonPrefixCP : List Char → List Char → List Char
  | a :: as, b :: bs => if a = b then a :: commonPrefixCP as bs else []
  | _, _ => []

/-- `textwrap.dedent(text)`: normalize whitespace-only lines to empty, compute
the common leading-whitespace margin of the remaining lines, and remove that
margin from every line that starts with it. -/
def dedentList (cs : List Char) : List Char :=
  let lines := (splitLines cs).map blankToEmpty
  let indents := lines.filterMap lineIndent
  let margin :=
    match indents with
    | [] => []
    | i :: rest => rest.foldl commonPrefixCP i
  let lines2 :=
    if margin.isEmpty then lines
    else lines.map (fun l => if margin.isPrefixOf l then l.drop margin.length else l)
  joinLines lines2

/-- `str.expandtabs(8)`: each tab becomes spaces up to the next multiple of 8;
the column counter resets at `'\n'` and `'\r'`. -/
def expandTabsAux : List Char → Nat → List Char
  | [], _ => []
  | c :: cs, col =>
    if c = '\t' then
      List.replicate (8 - col % 8) ' ' ++ expandTabsAux cs (col + (8 - col % 8))
    else if c = '\n' || c = '\r' then c :: expandTabsAux cs 0
    else c :: expandTabsAux cs (col + 1)

/-- `TextWrapper._munge_whitespace`: expand tabs, then replace every
whitespace character by a single space. -/
def mungeList (cs : List Char) : List Char :=
  (expandTabsAux cs 0).map (fun c => if isPyWs c then ' ' else c)

/-- `\w` of `textwrap`'s word-separation regex (ASCII): letters, digits, `_`. -/
def isWordChar (c : Char) : Bool := c.isAlpha || c.isDigit || c == '_'

/-- `[^\d\W]` (a word character that is not a digit): letters and `_`. -/
def isLetterChar (c : Char) : Bool := c.isAlpha || c == '_'

/-- The regex's `word_punct` class `[\w!"'&.,?]`. -/
def isWordPunct (c : Char) : Bool :=
  isWordChar c || c == '!' || c == '"' || c == Char.ofNat 39 || c == '&' ||
    c == '.' || c == ',' || c == '?'

/-- Lookahead `-{2,}\w` at the start of `cs`: a run of at least two hyphens
followed immediately by a word character. -/
def hyphRunThenWord (cs : List Char) : Bool :=
  let h := (cs.takeWhile (fun x => x == '-')).length
  decide (2 ≤ h) &&
    (match cs.drop h with
     | d :: _ => isWordChar d
     | [] => false)

/-- Lookahead `[^\d\W]-?[^\d\W]` at the start of `cs` (with backtracking on
the optional hyphen). -/
def lookaheadWordCont : List Char → Bool
  | a :: b :: rest =>
    isLetterChar a &&
      (isLetterChar b ||
        (b == '-' &&
          (match rest with
           | c :: _ => isLetterChar c
           | [] => false)))
  | _ => false

/-- The regex's hyphenated-word alternative.  `rp` is the reverse of the
whole text before the current position (a lookbehind may reach back past
the start of the current match): the next character is a hyphen whose
lookbehind (`(?<=[^\d\W]{2}-)` or `(?<=[^\d\W]-[^\d\W]-)`) and lookahead
(`(?=[^\d\W]-?[^\d\W])`) both hold. -/
def wordBreakHyphen (rp : List Char) : List Char → Bool
  | '-' :: rest =>
    ((match rp with
      | b :: a :: _ => isLetterChar b && isLetterChar a
      | _ => false) ||
     (match rp with
      | c1 :: h :: c2 :: _ => isLetterChar c1 && h == '-' && isLetterChar c2
      | _ => false)) &&
    lookaheadWordCont rest
  | _ => false

/-- The regex's trailing-em-dash alternative: the character before the
current position is in `word_punct` and `-{2,}\w` follows. -/
def wordBreakEmDash (rp : List Char) (s : List Char) : Bool :=
  (match rp with
   | c :: _ => isWordPunct c
   | [] => false) &&
  hyphRunThenWord s

/-- Scan one word chunk.  The first argument is the remaining text, `n` is
the number of characters consumed by the current match so far (at least 1),
and `rp` is the reverse of the whole text before the current position (so
the current match is `(rp.take n).reverse`).  Mirrors the lazy
`[^ \t\n\x0b\x0c\r]+?` with its three ordered end alternatives (hyphenated
word break, end of word at whitespace or end of text, em-dash ahead).
Returns the chunk, the updated reversed prefix, and the remaining text. -/
def scanWord : List Char → Nat → List Char → List Char × List Char × List Char
  | [], n, rp => ((rp.take n).reverse, rp, [])
  | c :: rest, n, rp =>
    if wordBreakHyphen rp (c :: rest) then
      ((('-' :: rp).take (n + 1)).reverse, '-' :: rp, rest)
    else if isPyWs c then ((rp.take n).reverse, rp, c :: rest)
    else if wordBreakEmDash rp (c :: rest) then ((rp.take n).reverse, rp, c :: rest)
    else scanWord rest (n + 1) (c :: rp)

/-- One pass of `TextWrapper._split`'s regex scan, with fuel (each produced
chunk consumes at least one character, so `text.length + 1` fuel suffices).
`rp` is the reverse of the text already scanned, consulted by the
lookbehinds. -/
def splitChunksF : Nat → List Char → List Char → List (List Char)
  | 0, _, _ => []
  | _, _, [] => []
  | fuel + 1, rp, c :: rest =>
    if isPyWs c then
      let run := c :: rest.takeWhile isPyWs
      let rest2 := rest.dropWhile isPyWs
      run :: splitChunksF fuel (run.reverse ++ rp) rest2
    else if (match rp with | p :: _ => isWordPunct p | [] => false) &&
        hyphRunThenWord (c :: rest) then
      let h := (c :: rest).takeWhile (fun x => x == '-')
      h :: splitChunksF fuel (h.reverse ++ rp) ((c :: rest).drop h.length)
    else
      let pr := scanWord rest 1 (c :: rp)
      pr.1 :: splitChunksF fuel pr.2.1 pr.2.2

/-- `TextWrapper._split(text)`: chunk the munged text into alternating word
and whitespace chunks, dropping empty strings. -/
def splitChunks (cs : List Char) : List (List Char) :=
  (splitChunksF (cs.length + 1) [] cs).filter (fun c => !c.isEmpty)

/-- `chunk.strip() == ''`: the chunk is entirely whitespace. -/
def isWsChunk (c : List Char) : Bool := (stripList c).isEmpty

/-- Total number of characters in a chunk list. -/
def chunksTotal (chs : List (List Char)) : Nat :=
  chs.foldl (fun a c => a + c.length) 0

/-- Index of the last `'-'` in `cs`, if any (`str.rfind('-', 0, n)` after a
`take n`). -/
def rfindHyphenAux : List Char → Nat → Option Nat → Option Nat
  | [], _, acc => acc
  | c :: rest, i, acc =>
    rfindHyphenAux rest (i + 1) (if c = '-' then some i else acc)

def rfindHyphen (cs : List Char) : Option Nat := rfindHyphenAux cs 0 Option.none

/-- `TextWrapper._handle_long_word` with `break_long_words=True` and
`break_on_hyphens=True`: split the chunk at the space left on the current
line, preferring a break just after the last hyphen in that window when the
hyphen is preceded by some non-hyphen.  Returns the piece placed on the
current line and the remainder of the chunk. -/
def handleLongWord (chunk : List Char) (curLen width : Nat) : List Char × List Char :=
  let spaceLeft := if width < 1 then 1 else width - curLen
  let endPos :=
    if spaceLeft < chunk.length then
      match rfindHyphen (chunk.take spaceLeft) with
      | some hy =>
        if 0 < hy && (chunk.take hy).any (fun c => !(c == '-')) then hy + 1
        else spaceLeft
      | none => spaceLeft
    else spaceLeft
  (chunk.take endPos, chunk.drop endPos)

/-- The greedy inner loop of `_wrap_chunks`: take chunks while the line stays
within `width`.  Returns the taken chunks, the resulting line length, and
the remaining chunks. -/
def takeGreedy : List (List Char) → Nat → Nat → List (List Char) × Nat × List (List Char)
  | [], _, curLen => ([], curLen, [])
  | c :: rest, width, curLen =>
    if curLen + c.length ≤ width then
      let r := takeGreedy rest width (curLen + c.length)
      (c :: r.1, r.2.1, r.2.2)
    else ([], curLen, c :: rest)

/-- The outer loop of `TextWrapper._wrap_chunks` (defaults: empty indents,
`drop_whitespace=True`, `max_lines=None`), with fuel.  Every iteration
either drops a whitespace chunk, consumes at least one whole chunk, or
shortens an over-long chunk by at least one character, so
`2 * chunks.length + chunksTotal chunks + 1` fuel suffices. -/
def wrapLoop : Nat → Bool → Nat → List (List Char) → List (List Char)
  | 0, _, _, _ => []
  | _ + 1, _, _, [] => []
  | fuel + 1, hasLines, width, chs =>
    let chunks1 :=
      match chs with
      | c :: rest => if hasLines && isWsChunk c then rest else chs
      | [] => chs
    match chunks1 with
    | [] => []
    | _ :: _ =>
      let t := takeGreedy chunks1 width 0
      let cur0 := t.1
      let len0 := t.2.1
      let rest0 := t.2.2
      let p :=
        match rest0 with
        | c :: rs =>
          if width < c.length then
            let hw := handleLongWord c len0 width
            (cur0 ++ [hw.1], hw.2 :: rs)
          else (cur0, rest0)
        | [] => (cur0, rest0)
      let cur1 := p.1
      let rest1 := p.2
      let cur2 :=
        match cur1.getLast? with
        | some lc => if isWsChunk lc then cur1.dropLast else cur1
        | none => cur1
      if cur2.isEmpty then wrapLoop fuel hasLines width rest1
      else cur2.flatten :: wrapLoop fuel true width rest1

/-- `textwrap.wrap(text)` with default parameters (`width=70`). -/
def wrapList (cs : List Char) : List (List Char) :=
  let chunks := splitChunks (mungeList cs)
  wrapLoop (2 * chunks.length + chunksTotal chunks + 1) false 70 chunks

/-- `textwrap.fill(text)`: `'\n'.join(wrap(text))`. -/
def fillList (cs : List Char) : List Char := joinLines (wrapList cs)

/-- `reflow(paragraph)`:
`textwrap.fill(textwrap.dedent(paragraph).strip())`. -/
def reflow (s : String) : String :=
  String.mk (fillList (stripList (dedentList s.data)))

/-! ### Data model: suggestions, check results, the registry wrapper

A *check* is a zero-argument procedure.  Calling the registered function
`fn()` either raises an exception itself, or returns `None`, or returns a
generator.  Running the returned generator to exhaustion (as
`suggestions.extend(check())` does) produces a finite sequence of yielded
`Suggestion`s and then either finishes normally or raises.  `PyRet`
captures the value returned by such a call together with the behaviour of
the returned generator when it is consumed; `Except String PyRet` captures
the call itself (`Except.error tb` is an exception raised directly by
`fn()`, carrying its rendered traceback). -/

/-- `Suggestion = collections.namedtuple("Suggestion", ("headline", "description"))`. -/
structure Suggestion where
  headline : String
  description : String
deriving DecidableEq

/-- The value returned by calling a check procedure: Python `None`, or a
generator that, when drained, yields `ys` in order and then either returns
(`exc = none`) or raises an exception with traceback `exc`. -/
inductive PyRet where
  | noneVal : PyRet
  | gen : List Suggestion → Option String → PyRet
deriving DecidableEq

/-- A registered check: its `__name__` and the behaviour of calling the
registered procedure once (this run's outcome). -/
structure Check where
  name : String
  fn : Except String PyRet

/-- The body of the closure installed by `check(fn)`:
`result = fn(); return iter(()) if result is None else result`.
An exception raised by `fn()` itself propagates out of the wrapper. -/
def wrapper : Except String PyRet → Except String PyRet
  | Except.ok PyRet.noneVal => Except.ok (PyRet.gen [] Option.none)
  | Except.ok (PyRet.gen ys e) => Except.ok (PyRet.gen ys e)
  | Except.error tb => Except.error tb

/-- `check(fn)` also appends the wrapper to the `CHECKS` registry; checks
run in registration order. -/
def checkRegister (registry : List Check) (c : Check) : List Check :=
  registry ++ [c]

/-- The message of the `TypeError` that `list.extend` would raise if handed
`None` (this situation is exactly what `wrapper` prevents). -/
def typeErrorNoneMsg : String :=
  "TypeError: " ++ aposS ++ "NoneType" ++ aposS ++ " object is not iterable"

/-- `suggestions.extend(check())` for one check, inside the runner's `try`:
the list of suggestions appended to the accumulator, and the exception (if
any) escaping into the `except Exception` handler.  CPython's
`list.extend` appends each item as the generator yields it and performs no
rollback, so a generator that raises after yielding still contributes
everything it yielded before the exception. -/
def callCheck (c : Check) : List Suggestion × Option String :=
  match wrapper c.fn with
  | Except.error tb => ([], some tb)
  | Except.ok PyRet.noneVal => ([], some typeErrorNoneMsg)
  | Except.ok (PyRet.gen ys e) => (ys, e)

/-- The `print("--- check: %s" % check.__name__)` framing line. -/
def framingLine (c : Check) : String := "--- check: " ++ c.name

/-- The runner's loop over `CHECKS`: for each check print the framing line,
run the check inside `try/except Exception`, printing the traceback
(`traceback.print_exc(file=sys.stdout)`) when it raises, and accumulate the
extended suggestions.  Returns the printed lines and the accumulated
`suggestions` list.  Per-check `logging` output is not modelled (the claims
do not constrain it). -/
def runChecks : List Check → List String × List Suggestion
  | [] => ([], [])
  | c :: rest =>
    let r := callCheck c
    let tbLines : List String :=
      match r.2 with
      | some tb => [tb]
      | none => []
    let rec0 := runChecks rest
    (framingLine c :: (tbLines ++ rec0.1), r.1 ++ rec0.2)

/-- Modelled from the amended specification wording, for comparison with the
runner: the suggestions a single check contributes are exactly those its
generator yields before completing or failing; a check whose call raises
before returning a generator (or which returns `None`) contributes
nothing. -/
def yieldedSuggestions (c : Check) : List Suggestion :=
  match c.fn with
  | Except.error _ => []
  | Except.ok PyRet.noneVal => []
  | Except.ok (PyRet.gen ys _) => ys

/-! ### The report rendered by `main` -/

def markdown_ticks : String := "``````"

/-- The lines printed for one accumulated suggestion. -/
def suggestionSection (s : Suggestion) : List String :=
  ["", "### Suggestion: " ++ s.headline, "", s.description]

/-- The literal passed to `reflow` for the non-empty-suggestions footer. -/
def tryEachText : String := "\n        Please try each suggestion enumerated above to determine whether\n        it solves your problem. If none of these suggestions works,\n        please copy ALL of the above output, including the lines\n        containing only backticks, into your GitHub issue or comment. Be\n        sure to redact any sensitive information.\n        "

/-- The literal passed to `reflow` for the empty-suggestions footer. -/
def noActionText : String := "\n        No action items identified. Please copy ALL of the above output,\n        including the lines containing only backticks, into your GitHub\n        issue or comment. Be sure to redact any sensitive information.\n        "

/-- The footer printed under "### Next steps": `if suggestions:` chooses the
"try each suggestion" variant, otherwise the "No action items" variant. -/
def footerText (ss : List Suggestion) : String :=
  if ss.isEmpty then reflow noActionText else reflow tryEachText

/-- Everything `main` prints before the footer, one entry per `print` call
(an entry may contain internal newlines, e.g. a traceback or a reflowed
paragraph). -/
def mainBody (checks : List Check) : List String :=
  ["### Diagnostics", "", markdown_ticks]
    ++ (runChecks checks).1
    ++ [markdown_ticks, "", "End of diagnostics."]
    ++ ((runChecks checks).2.map suggestionSection).flatten
    ++ ["", "### Next steps", ""]

/-- The full sequence of lines printed by `main`. -/
def mainLines (checks : List Check) : List String :=
  mainBody checks ++ [footerText (runChecks checks).2]

/-- The runner's accumulated `suggestions` list after all checks ran. -/
def mainSuggestions (checks : List Check) : List Suggestion :=
  (runChecks checks).2

/-- The process exit status: `main` returns `None` for every input (every
exception a check can raise is consumed by the per-check
`except Exception` handler inside `runChecks`), the script calls `main()`
at top level without `sys.exit`, so the interpreter exits with status 0. -/
def mainExitStatus (_checks : List Check) : Nat := 0

/-! ### Subprocess-backed helpers: `pip`, `which` -/

/-- How a `subprocess.check_output` call can fail:
`subprocess.CalledProcessError` (the command ran and exited nonzero,
carrying the exit code and captured output) or an `OSError` such as
`FileNotFoundError` (the command could not be run at all). -/
inductive SubprocError where
  | calledProcessError : Int → List Nat → SubprocError
  | osError : String → SubprocError
deriving DecidableEq

/-- The process environment, a partial map from variable names to values. -/
abbrev Env := String → Option String

/-- `os.environ[k] = v`. -/
def setEnv (env : Env) (k v : String) : Env :=
  fun q => if q = k then some v else env q

/-- `del os.environ[k]`. -/
def delEnv (env : Env) (k : String) : Env :=
  fun q => if q = k then Option.none else env q

def PYTHONWARNINGS_KEY : String := "PYTHONWARNINGS"

/-- `new_pythonwarnings = "%s%s" % ("ignore:DEPRECATION", ",%s" % old if old
else "")`: note the truthiness test, an empty prior value adds no comma. -/
def pipNewWarnings (old : Option String) : String :=
  "ignore:DEPRECATION" ++
    (match old with
     | some v => if v = "" then "" else "," ++ v
     | none => "")

/-- `command = [sys.executable, "-m", "pip"] + args`. -/
def pipCommand (pyExecutable : String) (args : List String) : List String :=
  pyExecutable :: "-m" :: "pip" :: args

/-- The environment in effect while `pip`'s subprocess runs:
`os.environ[PYTHONWARNINGS_KEY] = new_pythonwarnings` applied to the
entry environment. -/
def pipEnvDuring (env : Env) : Env :=
  setEnv env PYTHONWARNINGS_KEY (pipNewWarnings (env PYTHONWARNINGS_KEY))

/-- `pip(args)`: override `PYTHONWARNINGS` for the duration of one
`subprocess.check_output` call and restore its prior value — or absence —
in the `finally` block, which runs on the normal path and on the exception
path alike.  `runProc` is the subprocess call, a function of the command
line and of the environment it is started in.  Returns the final
environment and the call's outcome. -/
def pip (pyExecutable : String) (args : List String) (env : Env)
    (runProc : List String → Env → Except SubprocError (List Nat)) :
    Env × Except SubprocError (List Nat) :=
  let old := env PYTHONWARNINGS_KEY
  let envDuring := pipEnvDuring env
  let result := runProc (pipCommand pyExecutable args) envDuring
  let envAfter :=
    match old with
    | none => delEnv envDuring PYTHONWARNINGS_KEY
    | some v => setEnv envDuring PYTHONWARNINGS_KEY v
  (envAfter, result)

/-- `binary = "where" if os.name == "nt" else "which"`. -/
def whichBinaryName (isWindowsNT : Bool) : String :=
  if isWindowsNT then "where" else "which"

/-- `which(name)`: run the platform lookup command; a
`CalledProcessError` (nonzero exit) yields `None`, success yields the
output; any other exception — e.g. the `OSError` raised when the lookup
binary itself cannot be run — is not caught and propagates. -/
def which (isWindowsNT : Bool)
    (runProc : List String → Except SubprocError (List Nat)) (name : String) :
    Except SubprocError (Option (List Nat)) :=
  match runProc [whichBinaryName isWindowsNT, name] with
  | Except.ok out => Except.ok (some out)
  | Except.error (SubprocError.calledProcessError rc out) =>
    let _ := (rc, out)
    Except.ok Option.none
  | Except.error (SubprocError.osError m) => Except.error (SubprocError.osError m)

/-! ### `readable_fqdn` -/

/-- ASCII whitespace bytes stripped by `bytes.strip()`. -/
def isWsByte (b : Nat) : Bool :=
  b == 9 || b == 10 || b == 11 || b == 12 || b == 13 || b == 32

/-- `bytes.strip()`. -/
def bytesStrip (bs : List Nat) : List Nat :=
  ((bs.dropWhile isWsByte).reverse.dropWhile isWsByte).reverse

/-- `is_non_ascii = not all(0x20 <= c <= 0x7E for c in binary_hostname)`. -/
def isNonAscii (bs : List Nat) : Bool :=
  !(bs.all (fun b => decide (32 ≤ b) && decide (b ≤ 126)))

/-- `b"<unavailable>"`. -/
def unavailableBytes : List Nat := "<unavailable>".data.map Char.toNat

/-- One hexadecimal digit, lowercase, as `repr` prints it. -/
def hexDigit (n : Nat) : Char :=
  if n < 10 then Char.ofNat (48 + n) else Char.ofNat (87 + n)

/-- How `repr` renders one byte of a bytes object (`useDouble` true when the
enclosing quotes are double quotes, so a single quote needs no escape). -/
def byteEscape (useDouble : Bool) (b : Nat) : List Char :=
  if b = 92 then ['\\', '\\']
  else if b = 9 then ['\\', 't']
  else if b = 10 then ['\\', 'n']
  else if b = 13 then ['\\', 'r']
  else if b = 39 && !useDouble then ['\\', Char.ofNat 39]
  else if 32 ≤ b && b ≤ 126 then [Char.ofNat b]
  else ['\\', 'x', hexDigit (b / 16), hexDigit (b % 16)]

/-- `"%r" % (binary_hostname,)` for a bytes object: `b'...'` (double quotes
when the bytes contain a single quote but no double quote). -/
def pyBytesRepr (bs : List Nat) : String :=
  let hasSingle := bs.contains 39
  let hasDouble := bs.contains 34
  let useDouble := hasSingle && !hasDouble
  let q : Char := if useDouble then '"' else Char.ofNat 39
  String.mk ('b' :: q :: ((bs.map (byteEscape useDouble)).flatten ++ [q]))

/-- The literal (after `%`-substitution of the hostname repr) reflowed for
the "Use an ASCII hostname" suggestion. -/
def asciiHostnameMessage (r : String) : String :=
  "\n          Your computer" ++ aposS ++ "s hostname, " ++ r ++ ", contains bytes outside of the\n          printable ASCII range. Some versions of Python have trouble\n          working with such names (https://bugs.python.org/issue26227).\n          Consider changing to a hostname that only contains printable\n          ASCII bytes.\n          "

/-- The literal (after `%`-substitution of the hostname repr) reflowed for
the "Use a simpler hostname" suggestion. -/
def simplerHostnameMessage (r : String) : String :=
  "\n          Python can" ++ aposS ++ "t read your computer" ++ aposS ++ "s hostname, " ++ r ++ ". This can occur\n          if the hostname contains non-ASCII bytes\n          (https://bugs.python.org/issue26227). Consider changing your\n          hostname, rebooting your machine, and rerunning this diagnosis\n          script to see if the problem is resolved.\n          "

/-- `readable_fqdn` as a generator body: `fqdnRes` is the outcome of
`socket.getfqdn()` (`Except.error e` is a raised `UnicodeDecodeError` with
rendered form `e`), `hostnameRes` the outcome of
`subprocess.check_output(["hostname"])`.  On a decode failure the raw
hostname is probed (`CalledProcessError` falls back to `b"<unavailable>"`,
but an `OSError` from the probe is not caught and propagates out of the
generator before anything is yielded), the failure is classified by
`is_non_ascii`, exactly one suggestion is yielded, and the original
exception is re-raised. -/
def readable_fqdn (fqdnRes : Except String String)
    (hostnameRes : Except SubprocError (List Nat)) : PyRet :=
  match fqdnRes with
  | Except.ok _ => PyRet.gen [] Option.none
  | Except.error e =>
    match hostnameRes with
    | Except.error (SubprocError.osError m) => PyRet.gen [] (some m)
    | _ =>
      let binary_hostname :=
        match hostnameRes with
        | Except.ok bs => bytesStrip bs
        | Except.error _ => unavailableBytes
      if isNonAscii binary_hostname then
        PyRet.gen
          [⟨"Use an ASCII hostname",
            reflow (asciiHostnameMessage (pyBytesRepr binary_hostname))⟩]
          (some e)
      else
        PyRet.gen
          [⟨"Use a simpler hostname",
            reflow (simplerHostnameMessage (pyBytesRepr binary_hostname))⟩]
          (some e)

/-! ### `stat_tensorboardinfo` -/

structure StatResult where
  st_mode : Nat
deriving DecidableEq

/-- An `OSError` raised by `os.stat`, with its `errno` and rendered form. -/
structure OSErrorInfo where
  errno : Nat
  msg : String
deriving DecidableEq

def ENOENT : Nat := 2

/-- `os.path.join` (POSIX, two components). -/
def posixJoin (a b : String) : String :=
  match b.data with
  | '/' :: _ => b
  | _ =>
    if a = "" then a ++ b
    else if a.data.getLast? = some '/' then a ++ b
    else a ++ "/" ++ b

/-- A character that `shlex.quote` considers safe (the class
`[\w@%+=:,.` followed by `/` and `-`, ASCII). -/
def shlexSafeChar (c : Char) : Bool :=
  c.isAlpha || c.isDigit || c == '_' || c == '@' || c == '%' || c == '+' ||
    c == '=' || c == ':' || c == ',' || c == '.' || c == '/' || c == '-'

/-- `shlex.quote(s)`: return `s` unchanged when every character is safe,
else wrap in single quotes, turning each embedded single quote into
`'"'"'`. -/
def shlexQuote (s : String) : String :=
  if s = "" then aposS ++ aposS
  else if s.data.all shlexSafeChar then s
  else
    aposS ++
      String.mk
        ((s.data.map (fun c =>
            if c = Char.ofNat 39 then
              (aposS ++ "\"" ++ aposS ++ "\"" ++ aposS).data
            else [c])).flatten) ++
      aposS

/-- The literal reflowed into the permissions suggestion's preamble. -/
def statPreamble : String := "\n        The \".tensorboard-info\" directory was created by an old version\n        of TensorBoard, and its permissions are not set correctly; see\n        issue #2010. Change that directory to be world-accessible (may\n        require superuser privilege):\n        "

/-- `stat_tensorboardinfo` as a generator body: `tmpdir` is
`tempfile.gettempdir()` and `statRes` the outcome of `os.stat(path)`.
`ENOENT` means the directory is absent: the check returns normally with no
suggestion; any other `OSError` is re-raised; on success exactly one
suggestion is yielded iff `st_mode & 0o777 != 0o777`. -/
def stat_tensorboardinfo (tmpdir : String)
    (statRes : Except OSErrorInfo StatResult) : PyRet :=
  let path := posixJoin tmpdir ".tensorboard-info"
  match statRes with
  | Except.error e =>
    if e.errno = ENOENT then PyRet.gen [] Option.none
    else PyRet.gen [] (some e.msg)
  | Except.ok st =>
    if st.st_mode &&& 0o777 ≠ 0o777 then
      PyRet.gen
        [⟨"Fix permissions on \"" ++ path ++ "\"",
          reflow statPreamble ++ "\n\n\t" ++ ("chmod 777 " ++ shlexQuote path)⟩]
        Option.none
    else PyRet.gen [] Option.none

/-- The suggestions yielded by a drained generator value. -/
def genYields : PyRet → List Suggestion
  | PyRet.noneVal => []
  | PyRet.gen ys _ => ys

/-- The exception (if any) a drained generator value raises at the end. -/
def genExc : PyRet → Option String
  | PyRet.noneVal => Option.none
  | PyRet.gen _ e => e

/-! ### Concrete instances used when settling the claims -/

/-- `reflow` output in the expected word-wrapped shape: every line is
nonempty, starts with a non-whitespace character, and is at most the wrap
width of 70 characters long. -/
def wrappedShape (s : String) : Bool :=
  (splitLines s.data).all fun l =>
    !l.isEmpty && !(isPyWs (l.headD ' ')) && decide (l.length ≤ 70)

/-- A suggestion such as `installed_packages` yields. -/
def c1Suggestion : Suggestion :=
  ⟨"Fix conflicting installations", "Uninstall and reinstall."⟩

/-- A check whose generator yields one suggestion and then raises (as
`readable_fqdn` does by design on a decode failure). -/
def c1FailingCheck : Check :=
  ⟨"installed_packages",
    Except.ok (PyRet.gen [c1Suggestion]
      (some "Traceback (most recent call last): RuntimeError: boom"))⟩

def c2SuggestionA : Suggestion := ⟨"Use an ASCII hostname", "Rename the host."⟩
def c2SuggestionB : Suggestion := ⟨"Use a simpler hostname", "Simplify the name."⟩

/-- A check whose generator yields two suggestions and then raises. -/
def c2FailingCheck : Check :=
  ⟨"readable_fqdn",
    Except.ok (PyRet.gen [c2SuggestionA, c2SuggestionB]
      (some "Traceback (most recent call last): UnicodeDecodeError"))⟩

/-- A check whose call raises directly (a plain, non-generator check body
such as `tensorflow_python_version` hitting an `ImportError`). -/
def c3RaisingCheck : Check :=
  ⟨"tensorflow_python_version",
    Except.error "Traceback (most recent call last): ImportError: no module named tensorflow"⟩

/-- 65 copies of `a`, two spaces, then `bbbb`: 71 characters, so the two
spaces land exactly at the chosen line break. -/
def c5Input : String :=
  String.mk (List.replicate 65 'a' ++ [' ', ' ', 'b', 'b', 'b', 'b'])

/-- What the first `reflow` makes of `c5Input`. -/
def c5Once : String :=
  String.mk (List.replicate 65 'a' ++ ['\n', 'b', 'b', 'b', 'b'])

/-- A lookup subprocess whose binary cannot be run at all. -/
def c8LookupMissing : List String → Except SubprocError (List Nat) :=
  fun _ =>
    Except.error
      (SubprocError.osError "FileNotFoundError: No such file or directory: which")

/-- A lookup subprocess that runs but exits nonzero. -/
def c8LookupNotOnPath : List String → Except SubprocError (List Nat) :=
  fun _ => Except.error (SubprocError.calledProcessError 1 [])

/-- A lookup subprocess that succeeds. -/
def c8LookupFound : List String → Except SubprocError (List Nat) :=
  fun _ => Except.ok ("/usr/bin/tensorboard".data.map Char.toNat)

/-- The rendered `UnicodeDecodeError` raised by `socket.getfqdn()`. -/
def c9DecodeError : String :=
  "UnicodeDecodeError: ascii codec cannot decode byte 0xc3 in position 4"

/-- The `hostname` probe failing because the binary is absent. -/
def c9HostnameOsError : SubprocError :=
  SubprocError.osError "FileNotFoundError: No such file or directory: hostname"

/-! ## Shared lemmas about the runner -/

/-- What one `suggestions.extend(check())` appends is exactly what the
check's generator yields before completing or failing. -/
theorem callCheck_fst_eq (c : Check) : (callCheck c).1 = yieldedSuggestions c := by
  cases c with
  | mk nm fn =>
    cases fn with
    | error tb => rfl
    | ok r => cases r <;> rfl

/-- The runner's suggestion accumulator distributes over concatenation of
check lists. -/
theorem runChecks_snd_append (l1 l2 : List Check) :
    (runChecks (l1 ++ l2)).2 = (runChecks l1).2 ++ (runChecks l2).2 := by
  induction l1 with
  | nil => rfl
  | cons c rest ih =>
    simp only [List.cons_append, runChecks]
    rw [List.append_assoc]
    exact congrArg (fun x => (callCheck c).1 ++ x) ih

/-- The framing lines appear in the runner's output, in registration order. -/
theorem framing_sublist (checks : List Check) :
    List.Sublist (checks.map framingLine) (runChecks checks).1 := by
  induction checks with
  | nil => exact List.Sublist.refl _
  | cons c rest ih =>
    simp only [List.map_cons, runChecks]
    exact List.Sublist.cons₂ _
      (ih.trans (List.sublist_append_right _ _))

/-- The traceback of every check whose run raises appears in the runner's
output. -/
theorem tb_mem_runChecks (checks : List Check) (c : Check) (tb : String)
    (hmem : c ∈ checks) (htb : (callCheck c).2 = some tb) :
    tb ∈ (runChecks checks).1 := by
  induction checks with
  | nil => cases hmem
  | cons d rest ih =>
    rcases List.mem_cons.mp hmem with h | h
    · subst h
      simp only [runChecks, htb]
      exact List.mem_cons_of_mem _ (List.mem_append_left _ (List.mem_singleton.mpr rfl))
    · have := ih h
      simp only [runChecks]
      refine List.mem_cons_of_mem _ (List.mem_append_right _ this)

/-- Appending a single element makes it the last element. -/
theorem getLast?_append_singleton {α : Type} (l : List α) (a : α) :
    (l ++ [a]).getLast? = some a := by
  induction l with
  | nil => rfl
  | cons b l ih =>
    cases l with
    | nil => rfl
    | cons c l => simpa using ih

/-! ## The claims -/

/-- C1, counterexample: a check whose generator yields a suggestion and then
raises contributes that suggestion, so the claim's "failing checks
contributing nothing" is false — the accumulated list for this single
failing check is `[c1Suggestion]`, not `[]`. -/
theorem c1_failing_contributes_cex :
    (runChecks [c1FailingCheck]).2 = [c1Suggestion] ∧
      [c1Suggestion] ≠ ([] : List Suggestion) := by
  exact ⟨rfl, by simp⟩

/-- C1, amended: the runner's accumulated suggestion list equals the
concatenation, in registration order, of the suggestions each check's
generator yields before completing *or failing*; a check that fails before
yielding (or before returning a generator at all) contributes nothing, but
a generator that yields and then raises contributes its pre-failure
yields. -/
theorem c1_runner_concat (checks : List Check) :
    mainSuggestions checks = (checks.map yieldedSuggestions).flatten := by
  induction checks with
  | nil => rfl
  | cons c rest ih =>
    simp only [mainSuggestions, runChecks, List.map_cons, List.flatten_cons]
    rw [callCheck_fst_eq]
    exact congrArg (fun x => yieldedSuggestions c ++ x) ih

/-- C2, counterexample: a check that yields two suggestions and then raises
has both of them in the runner's accumulated list for that run, refuting
"none of that check's suggestions appear". -/
theorem c2_none_retained_cex :
    c2SuggestionA ∈ (runChecks [c2FailingCheck]).2 ∧
      c2SuggestionB ∈ (runChecks [c2FailingCheck]).2 := by
  exact ⟨List.mem_cons_self _ _, by simp [runChecks, callCheck, c2FailingCheck, wrapper]⟩

/-- C2, amended: a check whose generator raises after yielding `ys`
contributes exactly `ys` — the suggestions yielded before the point of
failure are retained (CPython's `list.extend` appends item by item and does
not roll back), wherever the check sits in the registration order. -/
theorem c2_prefix_retained (pre post : List Check) (nm : String)
    (ys : List Suggestion) (tb : String) :
    mainSuggestions (pre ++ Check.mk nm (Except.ok (PyRet.gen ys (some tb))) :: post) =
      mainSuggestions pre ++ ys ++ mainSuggestions post := by
  have h := runChecks_snd_append pre
    (Check.mk nm (Except.ok (PyRet.gen ys (some tb))) :: post)
  simp only [mainSuggestions, h, runChecks, callCheck, wrapper, List.append_assoc]

/-- C3: every check's framing line is printed in order (so every subsequent
check still runs after a failure), the traceback of every check whose run
raises is written into the report, the report is rendered to the end, and
the process exits with status 0 — no single check failure is fatal. -/
theorem c3_failure_containment (checks : List Check) :
    List.Sublist (checks.map framingLine) (mainLines checks) ∧
      (∀ c, c ∈ checks → ∀ tb, (callCheck c).2 = some tb → tb ∈ mainLines checks) ∧
      "End of diagnostics." ∈ mainLines checks ∧
      mainExitStatus checks = 0 := by
  refine ⟨?_, ?_, ?_, rfl⟩
  · have h1 : List.Sublist (checks.map framingLine) (runChecks checks).1 :=
      framing_sublist checks
    have h2 : List.Sublist (runChecks checks).1 (mainBody checks) := by
      unfold mainBody
      exact (((List.sublist_append_right _ _).trans
        (List.sublist_append_left _ _)).trans
        (List.sublist_append_left _ _)).trans
        (List.sublist_append_left _ _)
    exact (h1.trans h2).trans (List.sublist_append_left _ _)
  · intro c hmem tb htb
    have h := tb_mem_runChecks checks c tb hmem htb
    unfold mainLines mainBody
    refine List.mem_append_left _ ?_
    exact List.mem_append_left _
      (List.mem_append_left _ (List.mem_append_left _ (List.mem_append_right _ h)))
  · unfold mainLines mainBody
    simp

/-- C3, witness: with a single check whose body raises an `ImportError`, the
traceback appears in the rendered report and the exit status is 0. -/
theorem c3_failure_containment_witness :
    "Traceback (most recent call last): ImportError: no module named tensorflow" ∈
        mainLines [c3RaisingCheck] ∧
      mainExitStatus [c3RaisingCheck] = 0 :=
  ⟨(c3_failure_containment [c3RaisingCheck]).2.1 c3RaisingCheck
      (List.mem_singleton.mpr rfl) _ rfl,
    (c3_failure_containment [c3RaisingCheck]).2.2.2⟩

/-- C4: the wrapper installed by `check` never hands the runner `None`: a
procedure returning `None` is converted to an empty iterator (zero
suggestions, no failure), any other return value passes through unchanged,
and an exception raised by the procedure itself propagates unchanged. -/
theorem c4_wrapper_total (r : Except String PyRet) :
    wrapper r ≠ Except.ok PyRet.noneVal ∧
      wrapper (Except.ok PyRet.noneVal) = Except.ok (PyRet.gen [] Option.none) ∧
      (∀ ys e, wrapper (Except.ok (PyRet.gen ys e)) = Except.ok (PyRet.gen ys e)) ∧
      (∀ tb, wrapper (Except.error tb) = Except.error tb) ∧
      (∀ nm, callCheck ⟨nm, Except.ok PyRet.noneVal⟩ = ([], Option.none)) := by
  refine ⟨?_, rfl, fun ys e => rfl, fun tb => rfl, fun nm => rfl⟩
  cases r with
  | error tb => simp [wrapper]
  | ok v => cases v <;> simp [wrapper]

/-- C5, counterexample: `reflow` is not idempotent on every input.  For 65
`a`s, two spaces, and `bbbb` (71 characters), the first application drops
the two-space chunk at the line break; re-application sees a single space
there, and `65 + 1 + 4 ≤ 70` lets `bbbb` merge back onto the first line. -/
theorem c5_idempotence_cex :
    reflow c5Input = c5Once ∧ reflow (reflow c5Input) ≠ reflow c5Input := by
  constructor
  · decide
  · decide

/-- C5, amended: `reflow` of an indented multi-line literal strips the
common leading indentation, trims surrounding whitespace, and collapses
internal newlines into word-wrapped lines that are nonempty, start with a
non-whitespace character, and stay within the 70-column width (shown
literally for the "No action items" footer text and structurally for the
program's other reflowed literals); on such already-wrapped prose `reflow`
is idempotent, but it is not idempotent for every input string (a
whitespace run of length ≥ 2 at a chosen line break collapses on
re-application). -/
theorem c5_reflow_shape :
    reflow noActionText = "No action items identified. Please copy ALL of the above output,\nincluding the lines containing only backticks, into your GitHub issue\nor comment. Be sure to redact any sensitive information." ∧
      reflow (reflow noActionText) = reflow noActionText ∧
      reflow (reflow tryEachText) = reflow tryEachText ∧
      reflow (reflow statPreamble) = reflow statPreamble ∧
      wrappedShape (reflow noActionText) = true ∧
      wrappedShape (reflow tryEachText) = true ∧
      wrappedShape (reflow statPreamble) = true := by
  refine ⟨?_, ?_, ?_, ?_, ?_, ?_, ?_⟩ <;> decide

/-- C6: the rendered report always ends with the footer chosen by whether
any suggestions were accumulated, and with zero registered checks the full
report is exactly the fenced block with no check-framing lines, the
"End of diagnostics." marker, and the "No action items" footer. -/
theorem c6_footer (checks : List Check) :
    (mainLines checks).getLast? =
        some (if (mainSuggestions checks).isEmpty then reflow noActionText
              else reflow tryEachText) ∧
      mainLines [] =
        ["### Diagnostics", "", markdown_ticks, markdown_ticks, "",
          "End of diagnostics.", "", "### Next steps", "", reflow noActionText] := by
  constructor
  · unfold mainLines footerText
    exact getLast?_append_singleton _ _
  · rfl

/-- C7: on both exit paths of the `pip` helper (the subprocess call's
outcome is threaded through unchanged, whether success or exception) the
`finally` block restores `PYTHONWARNINGS` to its prior value — or removes
it when it was previously absent — and no other environment variable is
touched, even while the subprocess runs. -/
theorem c7_pip_env (pyExecutable : String) (args : List String) (env : Env)
    (runProc : List String → Env → Except SubprocError (List Nat)) (k : String) :
    (pip pyExecutable args env runProc).1 k = env k ∧
      (k ≠ PYTHONWARNINGS_KEY → pipEnvDuring env k = env k) ∧
      (pip pyExecutable args env runProc).2 =
        runProc (pipCommand pyExecutable args) (pipEnvDuring env) := by
  refine ⟨?_, ?_, rfl⟩
  · by_cases hk : k = PYTHONWARNINGS_KEY
    · subst hk
      cases h : env PYTHONWARNINGS_KEY <;>
        simp [pip, pipEnvDuring, setEnv, delEnv, h]
    · cases h : env PYTHONWARNINGS_KEY <;>
        simp [pip, pipEnvDuring, setEnv, delEnv, hk, h]
  · intro hk
    simp [pipEnvDuring, setEnv, hk]

/-- C7, witness: a concrete run (variable absent before, subprocess raises)
leaves `PATH` untouched and ends with `PYTHONWARNINGS` absent again. -/
theorem c7_pip_env_witness :
    (pip "python" ["freeze", "--all"] (fun _ => Option.none)
        (fun _ _ => Except.error (SubprocError.osError "boom"))).1 "PATH" =
      (fun (_ : String) => (Option.none : Option String)) "PATH" ∧
    pipEnvDuring (fun _ => Option.none) "PATH" =
      (fun (_ : String) => (Option.none : Option String)) "PATH" :=
  ⟨(c7_pip_env "python" ["freeze", "--all"] (fun _ => Option.none)
      (fun _ _ => Except.error (SubprocError.osError "boom")) "PATH").1,
    (c7_pip_env "python" ["freeze", "--all"] (fun _ => Option.none)
      (fun _ _ => Except.error (SubprocError.osError "boom")) "PATH").2.1
      (by decide)⟩

/-- C8, counterexample: when the platform lookup command itself cannot be
run (`OSError`, e.g. the binary is absent), `which` does not return `None`
— the exception propagates, refuting the claim's "not found … returns
None". -/
theorem c8_not_found_cex :
    which false c8LookupMissing "tensorboard" =
        Except.error
          (SubprocError.osError "FileNotFoundError: No such file or directory: which") ∧
      which false c8LookupMissing "tensorboard" ≠ Except.ok Option.none := by
  exact ⟨rfl, by simp [which, c8LookupMissing]⟩

/-- C8, amended: `which` returns `None` exactly when the lookup command runs
and exits nonzero (`CalledProcessError`); on success it returns the
command's output; if the lookup command cannot be run at all, the `OSError`
is not caught and propagates (to be contained by the per-check boundary). -/
theorem c8_which_cases (isWindowsNT : Bool)
    (runProc : List String → Except SubprocError (List Nat)) (nm : String) :
    (∀ out, runProc [whichBinaryName isWindowsNT, nm] = Except.ok out →
        which isWindowsNT runProc nm = Except.ok (some out)) ∧
      (∀ rc out,
        runProc [whichBinaryName isWindowsNT, nm] =
            Except.error (SubprocError.calledProcessError rc out) →
          which isWindowsNT runProc nm = Except.ok Option.none) ∧
      (∀ m,
        runProc [whichBinaryName isWindowsNT, nm] =
            Except.error (SubprocError.osError m) →
          which isWindowsNT runProc nm = Except.error (SubprocError.osError m)) := by
  refine ⟨?_, ?_, ?_⟩
  · intro out h
    simp [which, h]
  · intro rc out h
    simp [which, h]
  · intro m h
    simp [which, h]

/-- C8, witness: the three cases at concrete lookup outcomes. -/
theorem c8_which_cases_witness :
    which false c8LookupFound "tensorboard" =
        Except.ok (some ("/usr/bin/tensorboard".data.map Char.toNat)) ∧
      which false c8LookupNotOnPath "tensorboard" = Except.ok Option.none :=
  ⟨(c8_which_cases false c8LookupFound "tensorboard").1 _ rfl,
    (c8_which_cases false c8LookupNotOnPath "tensorboard").2.1 1 [] rfl⟩

/-- C9, counterexample: if, while handling the decode failure, the raw
`hostname` probe raises an `OSError` (binary absent), the check yields no
suggestion and does not re-raise the original exception — that error
propagates instead — refuting "yields exactly one suggestion … and then
re-raises the original exception". -/
theorem c9_probe_oserror_cex :
    genYields (readable_fqdn (Except.error c9DecodeError)
        (Except.error c9HostnameOsError)) = [] ∧
      genExc (readable_fqdn (Except.error c9DecodeError)
        (Except.error c9HostnameOsError)) ≠ some c9DecodeError := by
  constructor
  · rfl
  · decide

/-- C9, amended: on a decode failure, provided the raw `hostname` probe does
not itself raise an uncaught error — it succeeds (bytes are stripped) or
fails with `CalledProcessError` (substituting `b"<unavailable>"`) — the
check classifies the failure by whether the hostname bytes lie outside the
printable ASCII range 0x20–0x7E, yields exactly one suggestion with the
corresponding headline, and re-raises the original exception; an `OSError`
from the probe propagates before anything is yielded. -/
theorem c9_decode_classification (e fq m : String) (bs : List Nat)
    (rc : Int) (out : List Nat) (h : Except SubprocError (List Nat)) :
    readable_fqdn (Except.ok fq) h = PyRet.gen [] Option.none ∧
      ((genYields (readable_fqdn (Except.error e) (Except.ok bs))).map
          Suggestion.headline =
        [if isNonAscii (bytesStrip bs) then "Use an ASCII hostname"
         else "Use a simpler hostname"]) ∧
      genExc (readable_fqdn (Except.error e) (Except.ok bs)) = some e ∧
      ((genYields (readable_fqdn (Except.error e)
            (Except.error (SubprocError.calledProcessError rc out)))).map
          Suggestion.headline = ["Use a simpler hostname"]) ∧
      genExc (readable_fqdn (Except.error e)
          (Except.error (SubprocError.calledProcessError rc out))) = some e ∧
      readable_fqdn (Except.error e) (Except.error (SubprocError.osError m)) =
        PyRet.gen [] (some m) := by
  refine ⟨rfl, ?_, ?_, ?_, ?_, rfl⟩
  · by_cases hna : isNonAscii (bytesStrip bs) <;>
      simp [readable_fqdn, genYields, hna]
  · by_cases hna : isNonAscii (bytesStrip bs) <;>
      simp [readable_fqdn, genExc, hna]
  · have hu : isNonAscii unavailableBytes = false := by decide
    simp [readable_fqdn, genYields, hu]
  · have hu : isNonAscii unavailableBytes = false := by decide
    simp [readable_fqdn, genExc, hu]

/-- C10: `stat_tensorboardinfo` yields exactly one suggestion iff the stat
succeeds with `st_mode & 0o777 != 0o777`; an `ENOENT` failure completes
normally with zero suggestions; any other stat failure is re-raised to the
per-check boundary; a successful stat never raises; and the single
suggestion's headline names the probed path. -/
theorem c10_stat_permission (tmpdir : String) (e : OSErrorInfo)
    (st : StatResult) (r : Except OSErrorInfo StatResult) :
    (stat_tensorboardinfo tmpdir (Except.error e) =
        if e.errno = ENOENT then PyRet.gen [] Option.none
        else PyRet.gen [] (some e.msg)) ∧
      ((genYields (stat_tensorboardinfo tmpdir r)).length = 1 ↔
        ∃ stv, r = Except.ok stv ∧ stv.st_mode &&& 0o777 ≠ 0o777) ∧
      genExc (stat_tensorboardinfo tmpdir (Except.ok st)) = Option.none ∧
      ((genYields (stat_tensorboardinfo tmpdir (Except.ok st))).map
          Suggestion.headline =
        if st.st_mode &&& 0o777 ≠ 0o777 then
          ["Fix permissions on \"" ++ posixJoin tmpdir ".tensorboard-info" ++ "\""]
        else []) := by
  refine ⟨rfl, ?_, ?_, ?_⟩
  · cases r with
    | error e' =>
      constructor
      · intro hlen
        exfalso
        by_cases he : e'.errno = ENOENT <;>
          simp [stat_tensorboardinfo, genYields, he] at hlen
      · rintro ⟨stv, hst, _⟩
        cases hst
    | ok stv =>
      by_cases hb : stv.st_mode &&& 0o777 ≠ 0o777
      · simp only [stat_tensorboardinfo, if_pos hb, genYields]
        exact ⟨fun _ => ⟨stv, rfl, hb⟩, fun _ => rfl⟩
      · simp only [stat_tensorboardinfo, if_neg hb, genYields]
        constructor
        · intro hlen
          cases hlen
        · rintro ⟨stv', hst, hb'⟩
          cases hst
          exact absurd hb' hb
  · by_cases hb : st.st_mode &&& 0o777 ≠ 0o777 <;>
      simp [stat_tensorboardinfo, genExc, hb]
  · by_cases hb : st.st_mode &&& 0o777 ≠ 0o777 <;>
      simp [stat_tensorboardinfo, genYields, hb]

end DiagnoseMe
